import Mathlib

/-!
Verification of the ClawRouter gateway (`src/proxy.ts`, `src/models.ts`).

The development shallowly embeds the request-handling pipeline of the local
gateway: JSON body parsing and rewriting, model-alias resolution, the
provider-error classifier, the fallback loop, the dedup-key computation, the
balance veto, the streaming preamble and the response/caching step.  Pure
functions of the source are translated as Lean functions; the collaborators
whose code is not part of the verified sources (router `route`/`getFallbackChain`,
session store, balance monitor, upstream fetch) enter as explicit parameters,
exactly at the call boundaries the source uses.
-/

namespace ClawRouter

/-- ASCII lower-casing of one character, the fragment of JS
`String.prototype.toLowerCase` exercised by model ids and aliases. -/
def lowerChar (c : Char) : Char :=
  if 'A' ≤ c && c ≤ 'Z' then Char.ofNat (c.toNat + 32) else c

/-- Lower-case a string character-wise (JS `toLowerCase` on ASCII data). -/
def toLowerStr (s : String) : String :=
  ⟨s.data.map lowerChar⟩

/-- Whitespace recognised by JS `String.prototype.trim` (ASCII fragment). -/
def isWsChar (c : Char) : Bool :=
  c = ' ' || c = '\t' || c = '\n' || c = '\r' || c = '\x0b' || c = '\x0c'

/-- JS `String.prototype.trim` (ASCII fragment). -/
def trimStr (s : String) : String :=
  ⟨((s.data.dropWhile isWsChar).reverse.dropWhile isWsChar).reverse⟩

/-- Boolean prefix test on strings via their character lists. -/
def strStartsWith (s p : String) : Bool :=
  p.data.isPrefixOf s.data

/-- Drop the first `n` characters of a string. -/
def strDrop (s : String) (n : Nat) : String :=
  ⟨s.data.drop n⟩

/-- JSON value. Numbers keep their source text: the gateway never computes
with a JSON number in the verified paths, it only carries them through. -/
inductive Json where
  | null : Json
  | bool (b : Bool) : Json
  | num (raw : String) : Json
  | str (s : String) : Json
  | arr (elems : List Json) : Json
  | obj (fields : List (String × Json)) : Json

/-- One hex digit (lower case), for control-character escapes. -/
def hexDigit (n : Nat) : Char :=
  if n < 10 then Char.ofNat (48 + n) else Char.ofNat (97 + (n - 10))

/-- Escape one character the way `JSON.stringify` escapes string data. -/
def escChar (c : Char) : List Char :=
  if c = '"' then ['\\', '"']
  else if c = '\\' then ['\\', '\\']
  else if c = '\n' then ['\\', 'n']
  else if c = '\t' then ['\\', 't']
  else if c = '\r' then ['\\', 'r']
  else if c = '\x08' then ['\\', 'b']
  else if c = '\x0c' then ['\\', 'f']
  else if c.toNat < 32 then
    ['\\', 'u', '0', '0', hexDigit (c.toNat / 16), hexDigit (c.toNat % 16)]
  else [c]

/-- Quote a string as a JSON string literal (`JSON.stringify` on strings). -/
def quoteStr (s : String) : String :=
  ⟨'"' :: (s.data.flatMap escChar) ++ ['"']⟩

mutual

/-- `JSON.stringify`: compact form, no added whitespace, insertion order. -/
def Json.stringify : Json → String
  | .null => "null"
  | .bool true => "true"
  | .bool false => "false"
  | .num raw => raw
  | .str s => quoteStr s
  | .arr xs => "[" ++ stringifyArr xs ++ "]"
  | .obj fs => "\x7b" ++ stringifyObj fs ++ "\x7d"

/-- Comma-separated serialization of array elements. -/
def stringifyArr : List Json → String
  | [] => ""
  | [x] => Json.stringify x
  | x :: y :: xs => Json.stringify x ++ "," ++ stringifyArr (y :: xs)

/-- Comma-separated serialization of object fields. -/
def stringifyObj : List (String × Json) → String
  | [] => ""
  | [(k, v)] => quoteStr k ++ ":" ++ Json.stringify v
  | (k, v) :: f :: fs => quoteStr k ++ ":" ++ Json.stringify v ++ "," ++ stringifyObj (f :: fs)

end

/-- JSON whitespace (`space`, `tab`, `newline`, `carriage return`). -/
def isJsonWs (c : Char) : Bool :=
  c = ' ' || c = '\t' || c = '\n' || c = '\r'

/-- Skip JSON whitespace. -/
def skipWs (s : List Char) : List Char :=
  s.dropWhile isJsonWs

/-- Decode four hex digits; `none` if any character is not a hex digit. -/
def hexVal (c : Char) : Option Nat :=
  if '0' ≤ c && c ≤ '9' then some (c.toNat - 48)
  else if 'a' ≤ c && c ≤ 'f' then some (c.toNat - 87)
  else if 'A' ≤ c && c ≤ 'F' then some (c.toNat - 55)
  else none

/-- Parse the remainder of a JSON string literal (opening quote already
consumed), decoding escapes as `JSON.parse` does. -/
def parseStr : List Char → Option (String × List Char)
  | [] => none
  | '"' :: rest => some ("", rest)
  | '\\' :: e :: rest =>
    (match e, rest with
     | '"', r => (parseStr r).map (fun p => (⟨'"' :: p.1.data⟩, p.2))
     | '\\', r => (parseStr r).map (fun p => (⟨'\\' :: p.1.data⟩, p.2))
     | '/', r => (parseStr r).map (fun p => (⟨'/' :: p.1.data⟩, p.2))
     | 'b', r => (parseStr r).map (fun p => (⟨'\x08' :: p.1.data⟩, p.2))
     | 'f', r => (parseStr r).map (fun p => (⟨'\x0c' :: p.1.data⟩, p.2))
     | 'n', r => (parseStr r).map (fun p => (⟨'\n' :: p.1.data⟩, p.2))
     | 'r', r => (parseStr r).map (fun p => (⟨'\r' :: p.1.data⟩, p.2))
     | 't', r => (parseStr r).map (fun p => (⟨'\t' :: p.1.data⟩, p.2))
     | 'u', h1 :: h2 :: h3 :: h4 :: r =>
       (match hexVal h1, hexVal h2, hexVal h3, hexVal h4 with
        | some a, some b, some c, some d =>
          let n := ((a * 16 + b) * 16 + c) * 16 + d
          if n.isValidChar then
            (parseStr r).map (fun p => (⟨Char.ofNat n :: p.1.data⟩, p.2))
          else none
        | _, _, _, _ => none)
     | _, _ => none)
  | c :: rest =>
    if c.toNat < 32 then none
    else (parseStr rest).map (fun p => (⟨c :: p.1.data⟩, p.2))

/-- Is the character an ASCII digit? -/
def isDigitCh (c : Char) : Bool :=
  '0' ≤ c && c ≤ '9'

/-- Take the longest digit run. -/
def takeDigits (s : List Char) : List Char × List Char :=
  (s.takeWhile isDigitCh, s.dropWhile isDigitCh)

/-- Parse a JSON number per the RFC grammar, returning its source text
(the representation `JSON.parse`-then-`JSON.stringify` preserves for the
canonical integers the gateway traffics in). -/
def parseNum (s : List Char) : Option (String × List Char) :=
  let (sign, s1) := match s with
    | '-' :: r => (['-'], r)
    | r => (([] : List Char), r)
  match s1 with
  | '0' :: r =>
    let intPart := sign ++ ['0']
    parseNumFrac intPart r
  | c :: _ =>
    if isDigitCh c then
      let (ds, r) := takeDigits s1
      parseNumFrac (sign ++ ds) r
    else none
  | [] => none
where
  /-- Optional fraction then optional exponent. -/
  parseNumFrac (acc : List Char) (s : List Char) : Option (String × List Char) :=
    match s with
    | '.' :: r =>
      let (ds, r2) := takeDigits r
      if ds = [] then none else parseNumExp (acc ++ '.' :: ds) r2
    | _ => parseNumExp acc s
  /-- Optional exponent. -/
  parseNumExp (acc : List Char) (s : List Char) : Option (String × List Char) :=
    match s with
    | 'e' :: r => parseNumExpSign (acc ++ ['e']) r
    | 'E' :: r => parseNumExpSign (acc ++ ['E']) r
    | _ => some (⟨acc⟩, s)
  /-- Exponent sign and digits. -/
  parseNumExpSign (acc : List Char) (s : List Char) : Option (String × List Char) :=
    let (sg, s1) := match s with
      | '+' :: r => (['+'], r)
      | '-' :: r => (['-'], r)
      | r => (([] : List Char), r)
    let (ds, r2) := takeDigits s1
    if ds = [] then none else some (⟨acc ++ sg ++ ds⟩, r2)

/-- Insert-or-update a field of a JSON object: JS property assignment keeps
the position of an existing key and appends a new key. -/
def objInsert : List (String × Json) → String → Json → List (String × Json)
  | [], k, v => [(k, v)]
  | (k1, v1) :: rest, k, v =>
    if k1 = k then (k, v) :: rest else (k1, v1) :: objInsert rest k v

/-- Read a field of a JSON object (first binding wins, as in JS objects
built by `objInsert`). -/
def objGet (fs : List (String × Json)) (k : String) : Option Json :=
  (fs.find? (fun f => f.1 = k)).map (fun f => f.2)

mutual

/-- Fueled recursive-descent parser for a JSON value.  The fuel only bounds
the nesting depth; `Json.parse` supplies one unit per input character, which
no well-formed input can exhaust. -/
def parseVal : Nat → List Char → Option (Json × List Char)
  | 0, _ => none
  | _ + 1, [] => none
  | fuel + 1, s =>
    match s with
    | 'n' :: 'u' :: 'l' :: 'l' :: r => some (Json.null, r)
    | 't' :: 'r' :: 'u' :: 'e' :: r => some (Json.bool true, r)
    | 'f' :: 'a' :: 'l' :: 's' :: 'e' :: r => some (Json.bool false, r)
    | '"' :: r => (parseStr r).map (fun p => (Json.str p.1, p.2))
    | '[' :: r =>
      (match skipWs r with
       | ']' :: r2 => some (Json.arr [], r2)
       | r2 => (parseElems fuel r2 []).map (fun p => (Json.arr p.1, p.2)))
    | '\x7b' :: r =>
      (match skipWs r with
       | '\x7d' :: r2 => some (Json.obj [], r2)
       | r2 => (parseFields fuel r2 []).map (fun p => (Json.obj p.1, p.2)))
    | _ => (parseNum s).map (fun p => (Json.num p.1, p.2))

/-- Parse the comma-separated elements of a non-empty array. -/
def parseElems : Nat → List Char → List Json → Option (List Json × List Char)
  | 0, _, _ => none
  | fuel + 1, s, acc =>
    match parseVal fuel (skipWs s) with
    | none => none
    | some (v, rest) =>
      (match skipWs rest with
       | ',' :: r2 => parseElems fuel r2 (acc ++ [v])
       | ']' :: r2 => some (acc ++ [v], r2)
       | _ => none)

/-- Parse the comma-separated fields of a non-empty object.  A duplicate key
overwrites the value but keeps the first position, as `JSON.parse` does. -/
def parseFields : Nat → List Char → List (String × Json) →
    Option (List (String × Json) × List Char)
  | 0, _, _ => none
  | fuel + 1, s, acc =>
    match skipWs s with
    | '"' :: r =>
      (match parseStr r with
       | none => none
       | some (k, rest) =>
         (match skipWs rest with
          | ':' :: r2 =>
            (match parseVal fuel (skipWs r2) with
             | none => none
             | some (v, rest2) =>
               (match skipWs rest2 with
                | ',' :: r3 => parseFields fuel r3 (objInsert acc k v)
                | '\x7d' :: r3 => some (objInsert acc k v, r3)
                | _ => none))
          | _ => none))
    | _ => none

end

/-- `JSON.parse`: parse a complete JSON document, demanding that only
whitespace remains. -/
def Json.parse (s : String) : Option Json :=
  match parseVal (s.length + 1) (skipWs s.data) with
  | some (j, rest) => if skipWs rest = [] then some j else none
  | none => none

/-! ## `src/models.ts`: aliases and catalog -/

/-- `MODEL_ALIASES` from `src/models.ts`, in source order. -/
def MODEL_ALIASES : List (String × String) :=
  [("claude", "anthropic/claude-sonnet-4"),
   ("sonnet", "anthropic/claude-sonnet-4"),
   ("opus", "anthropic/claude-opus-4"),
   ("haiku", "anthropic/claude-haiku-4.5"),
   ("gpt", "openai/gpt-4o"),
   ("gpt4", "openai/gpt-4o"),
   ("gpt5", "openai/gpt-5.2"),
   ("mini", "openai/gpt-4o-mini"),
   ("o3", "openai/o3"),
   ("deepseek", "deepseek/deepseek-chat"),
   ("reasoner", "deepseek/deepseek-reasoner"),
   ("kimi", "moonshot/kimi-k2.5"),
   ("gemini", "google/gemini-2.5-pro"),
   ("flash", "google/gemini-2.5-flash"),
   ("grok", "xai/grok-3"),
   ("grok-fast", "xai/grok-4-fast-reasoning"),
   ("grok-code", "xai/grok-code-fast-1"),
   ("nvidia", "nvidia/gpt-oss-120b"),
   ("gpt-120b", "nvidia/gpt-oss-120b"),
   ("free", "nvidia/gpt-oss-120b")]

/-- JS object property lookup on the alias table. -/
def aliasLookup (k : String) : Option String :=
  (MODEL_ALIASES.find? (fun kv => kv.1 = k)).map (fun kv => kv.2)

/-- The `model.trim().toLowerCase()` normalization used by `resolveModelAlias`. -/
def normalizeModel (model : String) : String :=
  toLowerStr (trimStr model)

/-- `resolveModelAlias` from `src/models.ts`: trim + lowercase, look the value
up in the alias table, also with a `"blockrun/"` prefix stripped; otherwise
return the input unchanged. -/
def resolveModelAlias (model : String) : String :=
  match aliasLookup (normalizeModel model) with
  | some r => r
  | none =>
    if strStartsWith (normalizeModel model) ("blockrun/") = true then
      match aliasLookup (strDrop (normalizeModel model) 9) with
      | some r => r
      | none => model
    else model

/-- The `id` fields of `BLOCKRUN_MODELS` from `src/models.ts`, in source order.
Only the id is consumed by the verified paths (`estimateAmount` lookup and the
`/v1/models` filter); prices, context windows and capability flags are not. -/
def BLOCKRUN_MODEL_IDS : List String :=
  ["auto",
   "openai/gpt-5.2",
   "openai/gpt-5-mini",
   "openai/gpt-5-nano",
   "openai/gpt-5.2-pro",
   "openai/gpt-4.1",
   "openai/gpt-4.1-mini",
   "openai/gpt-4.1-nano",
   "openai/gpt-4o",
   "openai/gpt-4o-mini",
   "openai/o1",
   "openai/o1-mini",
   "openai/o3",
   "openai/o3-mini",
   "anthropic/claude-haiku-4.5",
   "anthropic/claude-sonnet-4",
   "anthropic/claude-opus-4",
   "anthropic/claude-opus-4.5",
   "google/gemini-3-pro-preview",
   "google/gemini-2.5-pro",
   "google/gemini-2.5-flash",
   "deepseek/deepseek-chat",
   "deepseek/deepseek-reasoner",
   "moonshot/kimi-k2.5",
   "xai/grok-3",
   "xai/grok-3-fast",
   "xai/grok-3-mini",
   "xai/grok-4-fast-reasoning",
   "xai/grok-4-fast-non-reasoning",
   "xai/grok-4-1-fast-reasoning",
   "xai/grok-4-1-fast-non-reasoning",
   "xai/grok-code-fast-1",
   "xai/grok-4-0709",
   "xai/grok-2-vision",
   "nvidia/gpt-oss-120b",
   "nvidia/kimi-k2.5"]

/-- `m.id.split("/")[0] || "unknown"`, the `owned_by` field of a
`/v1/models` entry. -/
def ownedBy (id : String) : String :=
  let seg : String := ⟨id.data.takeWhile (fun c => c ≠ '/')⟩
  if seg = "" then "unknown" else seg

/-- One entry of the `/v1/models` response `data` array (`created` is the
request-time clock value, a parameter here). -/
structure V1ModelEntry where
  id : String
  object : String
  created : Nat
  owned_by : String

/-- The `/v1/models` handler from `src/proxy.ts` (lines 454-464): filter the
catalog by `m.id !== "blockrun/auto"` and map each model into the list
envelope entry.  Served locally; no upstream call is involved. -/
def v1ModelsData (now : Nat) : List V1ModelEntry :=
  (BLOCKRUN_MODEL_IDS.filter (fun i => i ≠ "blockrun/auto")).map
    (fun i => ⟨i, "model", now / 1000, ownedBy i⟩)

/-! ## `src/proxy.ts`: constants and provider-error classification -/

/-- `AUTO_MODEL` constant. -/
def AUTO_MODEL : String := "blockrun/auto"

/-- `AUTO_MODEL_SHORT` constant (OpenClaw strips the provider prefix). -/
def AUTO_MODEL_SHORT : String := "auto"

/-- `FREE_MODEL` constant (free model for the empty-wallet fallback). -/
def FREE_MODEL : String := "nvidia/gpt-oss-120b"

/-- `MAX_FALLBACK_ATTEMPTS` constant (maximum models to try in the chain). -/
def MAX_FALLBACK_ATTEMPTS : Nat := 3

/-- `HEARTBEAT_INTERVAL_MS` constant. -/
def HEARTBEAT_INTERVAL_MS : Nat := 2000

/-- `DEFAULT_REQUEST_TIMEOUT_MS` constant (the total per-request deadline). -/
def DEFAULT_REQUEST_TIMEOUT_MS : Nat := 180000

/-- Characters a JS regex `.` does not match (`\n`, `\r`, ` `, ` `);
the gap `.*` between two literal pattern words must avoid them. -/
def noDotNewline (cs : List Char) : Bool :=
  cs.all (fun c => !(c = '\n' || c = '\r' || c.toNat = 0x2028 || c.toNat = 0x2029))

/-- Match the remaining words of a `w1.*w2.*…` pattern: each gap consists of
`.`-matchable characters only, each word occurs literally. -/
def matchRest (s : List Char) : List (List Char) → Bool
  | [] => true
  | w :: ws =>
    (List.range (s.length + 1)).any (fun j =>
      noDotNewline (s.take j) && w.isPrefixOf (s.drop j)
        && matchRest (s.drop (j + w.length)) ws)

/-- Unanchored match of a `w1.*w2.*…` pattern against a character list:
the first word may start anywhere, later words follow across `.*` gaps. -/
def matchSeq (s : List Char) : List (List Char) → Bool
  | [] => true
  | w :: ws =>
    (List.range (s.length + 1)).any (fun i =>
      w.isPrefixOf (s.drop i) && matchRest (s.drop (i + w.length)) ws)

/-- Case-insensitive test of one `PROVIDER_ERROR_PATTERNS` regex (each regex is
a sequence of lowercase literal words separated by `.*`). -/
def testPat (body : String) (ws : List String) : Bool :=
  matchSeq (body.data.map lowerChar) (ws.map (fun w => w.data))

/-- `PROVIDER_ERROR_PATTERNS` from `src/proxy.ts`: each `/a.*b/i` regex is
represented by its list of literal words. -/
def PROVIDER_ERROR_PATTERNS : List (List String) :=
  [["billing"],
   ["insufficient", "balance"],
   ["credits"],
   ["quota", "exceeded"],
   ["rate", "limit"],
   ["model", "unavailable"],
   ["model", "not", "available"],
   ["service", "unavailable"],
   ["capacity"],
   ["overloaded"],
   ["temporarily", "unavailable"],
   ["api", "key", "invalid"],
   ["authentication", "failed"]]

/-- `PROVIDER_ERROR_PATTERNS.some((pattern) => pattern.test(body))`. -/
def anyProviderPattern (body : String) : Bool :=
  PROVIDER_ERROR_PATTERNS.any (testPat body)

/-- `FALLBACK_STATUS_CODES` from `src/proxy.ts`. -/
def FALLBACK_STATUS_CODES : List Nat :=
  [400, 401, 402, 403, 429, 500, 502, 503, 504]

/-- `isProviderError` from `src/proxy.ts` (lines 145-158): status must be in
`FALLBACK_STATUS_CODES`; 5xx always falls back; 4xx falls back only when the
body matches a provider-error pattern. -/
def isProviderError (status : Nat) (body : String) : Bool :=
  if ¬ (status ∈ FALLBACK_STATUS_CODES) then false
  else if 500 ≤ status then true
  else anyProviderPattern body

/-! ## `tryModelRequest` and the fallback loop -/

/-- What one upstream `payFetch` call did: returned a response with a status
and body, or rejected (network error, including an abort of the fetch when
the per-request deadline fires during the attempt). -/
inductive UpstreamOutcome where
  | ok (status : Nat) (body : String) : UpstreamOutcome
  | exn (msg : String) : UpstreamOutcome

/-- `ModelRequestResult` from `src/proxy.ts`.  On success the error fields are
absent in the source; they are carried here as `0`/`""`/`false`. -/
structure ModelRequestResult where
  success : Bool
  errorStatus : Nat
  errorBody : String
  providerErr : Bool

/-- The result classification of `tryModelRequest` (lines 601-637): a non-200
response is classified through `isProviderError`; a rejected fetch is reported
as status 500 with `isProviderError: true` ("Network errors are retryable"). -/
def tryModelResult : UpstreamOutcome → ModelRequestResult
  | .ok status body =>
    if status = 200 then ⟨true, 0, "", false⟩
    else ⟨false, status, body, isProviderError status body⟩
  | .exn msg => ⟨false, 500, msg, true⟩

/-- The 200-response body of an outcome (used when the attempt succeeds). -/
def okBody : UpstreamOutcome → String
  | .ok _ b => b
  | .exn _ => ""

/-- `lastError` recording (lines 985-988): `errorBody || "Unknown error"`,
`errorStatus || 500`. -/
def recordError (r : ModelRequestResult) : String × Nat :=
  ((if r.errorBody = "" then "Unknown error" else r.errorBody),
   (if r.errorStatus = 0 then 500 else r.errorStatus))

/-- Outcome of the fallback loop (lines 954-1005): the models actually
attempted, the succeeding model with its 200 body (if any), and the last
recorded error. -/
structure LoopResult where
  attempts : List String
  success : Option (String × String)
  lastError : Option (String × Nat)

/-- The fallback loop: try each model in order; stop on success; continue past
a failure only when it is a provider error and not the last attempt. -/
def runLoop (outcome : Nat → UpstreamOutcome) : List String → Nat → LoopResult
  | [], _ => ⟨[], none, none⟩
  | m :: rest, i =>
    let oc := outcome i
    let r := tryModelResult oc
    if r.success = true then ⟨[m], some (m, okBody oc), none⟩
    else
      let le := recordError r
      if r.providerErr = true ∧ rest ≠ [] then
        let sub := runLoop outcome rest (i + 1)
        ⟨m :: sub.attempts, sub.success,
          some (match sub.lastError with | some e => e | none => le)⟩
      else ⟨[m], none, some le⟩

/-! ## `proxyRequest`: body preparation, dedup key, balance stage, response -/

/-- `estimateAmount` (lines 318-338) returns `undefined` exactly when the model
id is not in the catalog; when defined it is a positive (hence truthy) digit
string, so `if (estimated)` reduces to this catalog-membership test.  The
numeric value never influences the verified control flow. -/
def estimateAmountDefined (modelId : String) : Bool :=
  BLOCKRUN_MODEL_IDS.contains modelId

/-- The state of the request after the smart-routing block of `proxyRequest`
(lines 676-783): the (possibly rewritten) body bytes, the recorded inbound
`stream` flag, the current model id, and whether a routing decision was
produced (`routingDecision !== undefined`). -/
structure Prep where
  body : String
  isStreaming : Bool
  modelId : String
  routed : Bool

/-- The smart-routing block (lines 683-783) for a chat-completion request with
a non-empty body.  `sessionModel` is the pinned model the session store
returns for the request's session id (if any); `routeModel` is the model the
router's `route` call picks — both collaborators live outside the verified
sources and enter as parameters at their call boundaries.  On a parse failure
the error is logged and the body is used as-is. -/
def prepareChat (raw : String) (sessionModel : Option String) (routeModel : String) : Prep :=
  match Json.parse raw with
  | some (Json.obj fs) =>
    let streamTrue := (match objGet fs ("stream") with
      | some (Json.bool true) => true
      | _ => false)
    let modelStr : Option String := (match objGet fs ("model") with
      | some (Json.str s) => some s
      | _ => none)
    let modelId0 := (match modelStr with | some s => s | none => "")
    let fs1 := if streamTrue then objInsert fs ("stream") (Json.bool false) else fs
    let normalizedModel := (match modelStr with | some s => toLowerStr (trimStr s) | none => "")
    let resolvedModel := resolveModelAlias normalizedModel
    if normalizedModel = toLowerStr AUTO_MODEL ∨ normalizedModel = toLowerStr AUTO_MODEL_SHORT then
      match sessionModel with
      | some m =>
        ⟨Json.stringify (Json.obj (objInsert fs1 ("model") (Json.str m))), streamTrue, m, false⟩
      | none =>
        ⟨Json.stringify (Json.obj (objInsert fs1 ("model") (Json.str routeModel))),
          streamTrue, routeModel, true⟩
    else if resolvedModel ≠ normalizedModel then
      ⟨Json.stringify (Json.obj (objInsert fs1 ("model") (Json.str resolvedModel))),
        streamTrue, resolvedModel, false⟩
    else
      ⟨(if streamTrue then Json.stringify (Json.obj fs1) else raw), streamTrue, modelId0, false⟩
  | some _ => ⟨raw, false, "", false⟩
  | none => ⟨raw, false, "", false⟩

/-- The collaborators of one `proxyRequest` run.  Everything the verified
sources call but do not define is a parameter: the session store lookup, the
router's choice, `getFallbackChain`'s chain for the decision's tier, the
deduplicator's state for this key, the balance monitor's answers, the upstream
outcome of each attempt, and the SSE data frames the response translator
(lines 1093-1172) produces from the upstream 200 body. -/
structure Collab where
  sessionModel : Option String
  routeModel : String
  fallbackChain : List String
  cachedEntry : Option (Nat × String)
  inflightResult : Option (Nat × String)
  skipBalanceCheck : Bool
  balanceEmpty : Bool
  balanceSufficient : Bool
  outcome : Nat → UpstreamOutcome
  sseFrames : List String

/-- Observable result of one `proxyRequest` run: the bytes handed to
`RequestDeduplicator.hash`, the stream flag, whether a routing decision
existed, the error thrown out of `proxyRequest` (if any), the models for which
`tryModelRequest` was invoked, the ordered response writes, the response
status, and the entry stored in the deduplicator's completed cache. -/
structure ProxyResult where
  dedupKeyBytes : String
  isStreaming : Bool
  routed : Bool
  threw : Option String
  attempts : List String
  writes : List String
  responseStatus : Option Nat
  cached : Option (Nat × String)

/-- The SSE comment heartbeat frame (line 894). -/
def hbFrame : String := ": heartbeat\n\n"

/-- The SSE terminator frame. -/
def doneFrame : String := "data: [DONE]\n\n"

/-- The non-streaming terminal error body (lines 1048-1052). -/
def errorEnvelope (message : String) : String :=
  Json.stringify (Json.obj
    [("error", Json.obj [("message", Json.str message), ("type", Json.str ("provider_error"))])])

/-- The streaming terminal error event (line 1033). -/
def errorEnvelopeSSE (message : String) (status : Nat) : String :=
  "data: " ++ Json.stringify (Json.obj
    [("error", Json.obj [("message", Json.str message), ("type", Json.str ("provider_error")),
      ("status", Json.num (toString status))])]) ++ "\n\n"

/-- Concatenation of the collected response chunks (`Buffer.concat`). -/
def concatStr (frames : List String) : String :=
  frames.foldl (fun a b => a ++ b) ""

/-- Replay of a cached or in-flight dedup result (lines 789-803). -/
def replayResult (key : String) (p : Prep) (e : Nat × String) : ProxyResult :=
  ⟨key, p.isStreaming, p.routed, none, [], [e.2], some e.1, none⟩

/-- A balance error thrown out of `proxyRequest` (lines 847-868): the inflight
entry was released, nothing was attempted, written, or cached. -/
def throwResult (key : String) (p : Prep) (name : String) : ProxyResult :=
  ⟨key, p.isStreaming, p.routed, some name, [], [], none, none⟩

/-- The response/caching step of `proxyRequest` (lines 1026-1221) as a
function of the loop result: the ordered response writes, the response
status, and the completed-cache entry.  For a streaming request the headers
(with the first heartbeat) were already written by the preamble, so the
status is 200 and the error is delivered as an SSE event; a non-streaming
request receives the last error status with the `provider_error` envelope. -/
def mainResponse (p : Prep) (c : Collab) (lr : LoopResult) :
    List String × Option Nat × Option (Nat × String) :=
  let pre := if p.isStreaming then [hbFrame] else []
  match lr.success with
  | some s =>
    if p.isStreaming then
      (pre ++ c.sseFrames ++ [doneFrame], some 200,
        some (200, concatStr c.sseFrames ++ doneFrame))
    else ([s.2], some 200, some (200, s.2))
  | none =>
    let errBody := (match lr.lastError with
      | some e => e.1
      | none => "All models in fallback chain failed")
    let errStatus := (match lr.lastError with | some e => e.2 | none => 502)
    if p.isStreaming then
      let ev := errorEnvelopeSSE errBody errStatus
      (pre ++ [ev, doneFrame], some 200, some (200, ev ++ doneFrame))
    else
      let eb := errorEnvelope errBody
      ([eb], some errStatus, some (errStatus, eb))

/-- The part of `proxyRequest` after the balance stage (lines 880-1221):
streaming preamble, fallback chain construction (lines 945-952), the fallback
loop, and the response/caching step. -/
def runMain (key : String) (p : Prep) (c : Collab) : ProxyResult :=
  let modelsToTry :=
    if p.routed then c.fallbackChain.take MAX_FALLBACK_ATTEMPTS
    else if p.modelId ≠ "" then [p.modelId] else []
  let lr := runLoop c.outcome modelsToTry 0
  let r := mainResponse p c lr
  ⟨key, p.isStreaming, p.routed, none, lr.attempts, r.1, r.2.1, r.2.2⟩

/-- The body rewrite of the free-model fallback (lines 836-838): re-parse the
current body and overwrite `model`.  On the only path that reaches it the body
was produced from a parsed object, so the parse cannot fail. -/
def freeModelBody (body : String) : String :=
  match Json.parse body with
  | some (Json.obj fs) => Json.stringify (Json.obj (objInsert fs ("model") (Json.str FREE_MODEL)))
  | _ => body

/-- The prepared request state entering the dedup/balance/fallback stages:
the smart-routing block runs only for chat-completion URLs with a non-empty
body (lines 681-683). -/
def prepOf (urlIsChat : Bool) (raw : String) (c : Collab) : Prep :=
  if urlIsChat = true ∧ raw ≠ "" then prepareChat raw c.sessionModel c.routeModel
  else ⟨raw, false, "", false⟩

/-- One `proxyRequest` run (lines 649-1267) for a request whose URL is (or is
not) a chat completion: smart-routing body preparation, dedup-key computation
on the current body bytes (line 786), dedup replay, the pre-request balance
stage (lines 808-878) with its free-model fallback or thrown error, and the
main fallback/response step. -/
def proxyRequest (urlIsChat : Bool) (raw : String) (c : Collab) : ProxyResult :=
  let p := prepOf urlIsChat raw c
  let key := p.body
  match c.cachedEntry with
  | some e => replayResult key p e
  | none =>
    match c.inflightResult with
    | some e => replayResult key p e
    | none =>
      if p.modelId ≠ "" ∧ c.skipBalanceCheck = false ∧ p.modelId ≠ FREE_MODEL
          ∧ estimateAmountDefined p.modelId = true then
        if c.balanceEmpty = true ∨ c.balanceSufficient = false then
          if p.routed then
            runMain key ⟨freeModelBody p.body, p.isStreaming, FREE_MODEL, p.routed⟩ c
          else if c.balanceEmpty = true then throwResult key p ("EmptyWalletError")
          else throwResult key p ("InsufficientFundsError")
        else runMain key p c
      else runMain key p c

/-! ## Spec-side definition and concrete inputs used by the claims -/

/-- The retryability criterion exactly as the specification words it (C1):
"a network error, a 5xx status, a 429 status, or a response body matching a
provider-error pattern".  For the status/body classifier the network-error arm
is absent (a network error never reaches `isProviderError`), leaving: 5xx, or
429, or a pattern match.  This definition follows the spec's words and is
compared against the source's `isProviderError`. -/
def specClaimedRetryable (status : Nat) (body : String) : Prop :=
  (500 ≤ status ∧ status ≤ 599) ∨ status = 429 ∨ anyProviderPattern body = true

/-- A collaborator record with empty dedup state, a sufficient balance, and
failing upstream attempts; fields are overridden per concrete scenario. -/
def collabBase : Collab :=
  ⟨none, "", [], none, none, false, false, true, fun _ => UpstreamOutcome.exn "", []⟩

/-- A client body whose model is the alias `"claude"`. -/
def rawAliasBody : String := "\x7b\"model\":\"claude\"\x7d"

/-- A client body requesting the auto router. -/
def rawAutoBody : String := "\x7b\"model\":\"auto\"\x7d"

/-- A streaming client body with an explicit catalog model. -/
def rawStreamBody : String := "\x7b\"model\":\"openai/gpt-4o\",\"stream\":true\x7d"

/-- Collaborators for the deadline scenario: an auto-routed request with a
two-model chain whose fetches reject with the abort error raised when the
per-request deadline fires. -/
def collabDeadline : Collab :=
  ⟨none, "openai/gpt-4o", ["openai/gpt-4o", "openai/gpt-4o-mini"], none, none,
    false, false, true, fun _ => UpstreamOutcome.exn "This operation was aborted", []⟩

/-- Collaborators for the balance-veto scenario on an auto-routed request:
the balance is insufficient, the upstream would answer 200. -/
def collabVetoAuto : Collab :=
  ⟨none, "openai/gpt-4o", ["openai/gpt-4o"], none, none,
    false, false, false, fun _ => UpstreamOutcome.ok 200 "RESP", []⟩

/-- Collaborators for a successful streaming request. -/
def collabStreamOk : Collab :=
  ⟨none, "", [], none, none, false, false, true,
    fun _ => UpstreamOutcome.ok 200 "RESP", []⟩

/-- A client body with an explicit catalog model. -/
def rawExplicitBody : String := "\x7b\"model\":\"openai/gpt-4o\"\x7d"

/-- Collaborators for the balance-veto scenario on an explicit paid model:
the balance is insufficient but not empty. -/
def collabVetoExplicit : Collab :=
  ⟨none, "", [], none, none, false, false, false,
    fun _ => UpstreamOutcome.ok 200 "RESP", []⟩

/-- Collaborators for an explicit-model request whose attempt fails with a
retryable provider error (overloaded 503). -/
def collabExplicitFail : Collab :=
  ⟨none, "", [], none, none, false, false, true,
    fun _ => UpstreamOutcome.ok 503 "overloaded", []⟩

/-! ## Helper lemmas -/

/-- A successful alias lookup returns one of the alias table's values. -/
theorem aliasLookup_mem {k v : String} (h : aliasLookup k = some v) :
    v ∈ MODEL_ALIASES.map Prod.snd := by
  unfold aliasLookup at h
  rcases Option.map_eq_some'.mp h with ⟨kv, hfind, hv⟩
  exact hv ▸ List.mem_map_of_mem _ (List.mem_of_find?_eq_some hfind)

/-- Every value of the alias table is a fixed point of `resolveModelAlias`. -/
theorem alias_values_fixed : ∀ v ∈ MODEL_ALIASES.map Prod.snd, resolveModelAlias v = v := by
  decide

/-- `resolveModelAlias` either returns its input or an alias-table value. -/
theorem resolve_cases (x : String) :
    resolveModelAlias x = x ∨ resolveModelAlias x ∈ MODEL_ALIASES.map Prod.snd := by
  unfold resolveModelAlias
  rcases h1 : aliasLookup (normalizeModel x) with _ | r
  · simp only [h1]
    by_cases h2 : strStartsWith (normalizeModel x) ("blockrun/") = true
    · rw [if_pos h2]
      rcases h3 : aliasLookup (strDrop (normalizeModel x) 9) with _ | r2
      · simp only [h3]
        left
        trivial
      · simp only [h3]
        exact Or.inr (aliasLookup_mem h3)
    · rw [if_neg h2]
      left
      trivial
  · simp only [h1]
    exact Or.inr (aliasLookup_mem h1)

/-- The attempts of the fallback loop form a prefix of the model list. -/
theorem runLoop_attempts_take (o : Nat → UpstreamOutcome) :
    ∀ (ms : List String) (i : Nat), ∃ k, (runLoop o ms i).attempts = ms.take k := by
  intro ms
  induction ms with
  | nil =>
    intro i
    exact ⟨0, by simp [runLoop]⟩
  | cons m rest ih =>
    intro i
    unfold runLoop
    by_cases hs : (tryModelResult (o i)).success = true
    · exact ⟨1, by simp [hs]⟩
    · by_cases hp : (tryModelResult (o i)).providerErr = true ∧ rest ≠ []
      · obtain ⟨k, hk⟩ := ih (i + 1)
        exact ⟨k + 1, by simp [hs, hp, hk]⟩
      · exact ⟨1, by simp [hs, hp]⟩

/-- Every attempt before the final one was a failure classified as a
retryable provider error: a success or a non-retryable failure stops the
loop with no further model attempted. -/
theorem runLoop_stop (o : Nat → UpstreamOutcome) :
    ∀ (ms : List String) (i j : Nat),
      j + 1 < (runLoop o ms i).attempts.length →
      (tryModelResult (o (i + j))).success = false ∧
        (tryModelResult (o (i + j))).providerErr = true := by
  intro ms
  induction ms with
  | nil =>
    intro i j h
    simp [runLoop] at h
  | cons m rest ih =>
    intro i j h
    unfold runLoop at h
    by_cases hs : (tryModelResult (o i)).success = true
    · rw [if_pos hs] at h
      simp at h
    · rw [if_neg hs] at h
      by_cases hp : (tryModelResult (o i)).providerErr = true ∧ rest ≠ []
      · rw [if_pos hp] at h
        have hlen : j + 1 < (runLoop o rest (i + 1)).attempts.length + 1 := by
          simpa using h
        cases j with
        | zero =>
          cases htmp : (tryModelResult (o i)).success with
          | false => exact ⟨htmp, hp.1⟩
          | true => exact absurd htmp hs
        | succ j2 =>
          have h2 : j2 + 1 < (runLoop o rest (i + 1)).attempts.length := by omega
          have h3 := ih (i + 1) j2 h2
          have harith : i + 1 + j2 = i + (j2 + 1) := by omega
          rwa [harith] at h3
      · rw [if_neg hp] at h
        simp at h

/-- The loop over a single-model chain attempts exactly that model. -/
theorem runLoop_single (o : Nat → UpstreamOutcome) (m : String) (i : Nat) :
    (runLoop o [m] i).attempts = [m] := by
  unfold runLoop
  by_cases hs : (tryModelResult (o i)).success = true <;> simp [hs]

/-- `runMain` reports whatever dedup-key bytes it was given. -/
theorem runMain_key (k : String) (p : Prep) (c : Collab) :
    (runMain k p c).dedupKeyBytes = k := rfl

/-- `runMain` never throws. -/
theorem runMain_threw (k : String) (p : Prep) (c : Collab) :
    (runMain k p c).threw = none := rfl

/-- `runMain` reports the request's stream flag. -/
theorem runMain_isStreaming (k : String) (p : Prep) (c : Collab) :
    (runMain k p c).isStreaming = p.isStreaming := rfl

/-- `runMain` reports whether a routing decision existed. -/
theorem runMain_routed (k : String) (p : Prep) (c : Collab) :
    (runMain k p c).routed = p.routed := rfl

/-- The attempts of `runMain` are exactly the fallback loop's attempts over
the chain construction of lines 945-952. -/
theorem runMain_attempts (k : String) (p : Prep) (c : Collab) :
    (runMain k p c).attempts =
      (runLoop c.outcome
        (if p.routed then c.fallbackChain.take MAX_FALLBACK_ATTEMPTS
         else if p.modelId ≠ "" then [p.modelId] else []) 0).attempts := rfl

/-- For a streaming request the heartbeat frame is the very first response
write, whatever the loop and the translation produce afterwards. -/
theorem mainResponse_writes_streaming (p : Prep) (c : Collab) (lr : LoopResult)
    (h : p.isStreaming = true) :
    ∃ rest, (mainResponse p c lr).1 = hbFrame :: rest := by
  unfold mainResponse
  rcases lr with ⟨att, succ, le⟩
  cases succ with
  | some s => exact ⟨c.sseFrames ++ [doneFrame], by simp [h]⟩
  | none =>
    cases le with
    | some e => exact ⟨[errorEnvelopeSSE e.1 e.2, doneFrame], by simp [h]⟩
    | none =>
      exact ⟨[errorEnvelopeSSE "All models in fallback chain failed" 502, doneFrame],
        by simp [h]⟩

/-- The writes of `runMain` are those of the response step. -/
theorem runMain_writes (k : String) (p : Prep) (c : Collab) :
    (runMain k p c).writes =
      (mainResponse p c (runLoop c.outcome
        (if p.routed then c.fallbackChain.take MAX_FALLBACK_ATTEMPTS
         else if p.modelId ≠ "" then [p.modelId] else []) 0)).1 := rfl

/-- Exhaustive description of one `proxyRequest` run: it is a dedup replay
(only when the deduplicator held an entry), a thrown balance error on an
unrouted request, or a `runMain` execution whose prep either is the prepared
request itself or is the free-model substitution of a routed request. -/
theorem proxyRequest_cases (u : Bool) (raw : String) (c : Collab) :
    (∃ e, proxyRequest u raw c = replayResult (prepOf u raw c).body (prepOf u raw c) e ∧
        (c.cachedEntry = some e ∨ c.inflightResult = some e)) ∨
    (∃ nm, proxyRequest u raw c = throwResult (prepOf u raw c).body (prepOf u raw c) nm ∧
        (prepOf u raw c).routed = false) ∨
    (∃ p2, proxyRequest u raw c = runMain (prepOf u raw c).body p2 c ∧
        p2.isStreaming = (prepOf u raw c).isStreaming ∧
        p2.routed = (prepOf u raw c).routed ∧
        (p2 = prepOf u raw c ∨
          ((prepOf u raw c).routed = true ∧ p2.modelId = FREE_MODEL))) := by
  unfold proxyRequest
  rcases hc : c.cachedEntry with _ | e
  · rcases hi : c.inflightResult with _ | e
    · simp only [hc, hi]
      by_cases hb : (prepOf u raw c).modelId ≠ "" ∧ c.skipBalanceCheck = false ∧
          (prepOf u raw c).modelId ≠ FREE_MODEL ∧
          estimateAmountDefined (prepOf u raw c).modelId = true
      · rw [if_pos hb]
        by_cases hv : c.balanceEmpty = true ∨ c.balanceSufficient = false
        · rw [if_pos hv]
          by_cases hr : (prepOf u raw c).routed = true
          · rw [if_pos hr]
            refine Or.inr (Or.inr ⟨_, rfl, rfl, ?_, Or.inr ⟨hr, rfl⟩⟩)
            exact hr.symm ▸ rfl
          · rw [if_neg hr]
            by_cases he : c.balanceEmpty = true
            · rw [if_pos he]
              exact Or.inr (Or.inl ⟨_, rfl, Bool.not_eq_true _ ▸ hr⟩)
            · rw [if_neg he]
              exact Or.inr (Or.inl ⟨_, rfl, Bool.not_eq_true _ ▸ hr⟩)
        · rw [if_neg hv]
          exact Or.inr (Or.inr ⟨_, rfl, rfl, rfl, Or.inl rfl⟩)
      · rw [if_neg hb]
        exact Or.inr (Or.inr ⟨_, rfl, rfl, rfl, Or.inl rfl⟩)
    · simp only [hc, hi]
      exact Or.inl ⟨e, rfl, Or.inr rfl⟩
  · simp only [hc]
    exact Or.inl ⟨e, rfl, Or.inl rfl⟩

/-- A parse failure leaves the request untouched by the smart-routing block:
no streaming flag, no model id, no routing decision, body as received. -/
theorem prepOf_parse_none {raw : String} (c : Collab) (h : Json.parse raw = none) :
    prepOf true raw c = ⟨raw, false, "", false⟩ := by
  unfold prepOf
  by_cases hr : raw = ""
  · rw [if_neg (by simp [hr])]
  · rw [if_pos ⟨rfl, hr⟩]
    unfold prepareChat
    rw [h]

/-- Normal form of the source's classifier: retryable exactly for the listed
5xx codes, or for the listed 4xx codes with a pattern-matching body. -/
theorem isProviderError_iff (st : Nat) (b : String) :
    isProviderError st b = true ↔
      ((st = 500 ∨ st = 502 ∨ st = 503 ∨ st = 504) ∨
       ((st = 400 ∨ st = 401 ∨ st = 402 ∨ st = 403 ∨ st = 429) ∧
         anyProviderPattern b = true)) := by
  unfold isProviderError
  by_cases hm : st ∈ FALLBACK_STATUS_CODES
  · have hm2 : st = 400 ∨ st = 401 ∨ st = 402 ∨ st = 403 ∨ st = 429 ∨ st = 500
        ∨ st = 502 ∨ st = 503 ∨ st = 504 := by
      simpa [FALLBACK_STATUS_CODES] using hm
    rw [if_neg (not_not_intro hm)]
    by_cases h5 : 500 ≤ st
    · rw [if_pos h5]
      constructor
      · intro _
        left
        omega
      · intro _
        rfl
    · rw [if_neg h5]
      constructor
      · intro hp
        right
        exact ⟨by omega, hp⟩
      · rintro (h | h)
        · omega
        · exact h.2
  · rw [if_pos hm]
    constructor
    · intro h
      exact absurd h (by decide)
    · intro h
      exfalso
      apply hm
      rcases h with h | h
      · rcases h with h | h | h | h <;> simp [FALLBACK_STATUS_CODES, h]
      · rcases h.1 with h1 | h1 | h1 | h1 | h1 <;> simp [FALLBACK_STATUS_CODES, h1]

/-!
## Claim theorems

Each claim of the frozen list gets exactly one theorem below (plus a witness
or a counterexample where applicable).
-/

/-- C1 (claim as specified, refuted): `isProviderError` does not mark every
429 response retryable — a 429 whose body matches no provider-error pattern
(here: the empty body) is classified non-retryable, although the claimed
criterion ("network error, 5xx, 429, or pattern-matching body") calls it
retryable. -/
theorem c1_counterexample :
    isProviderError 429 "" = false ∧ specClaimedRetryable 429 "" := by
  exact ⟨rfl, Or.inr (Or.inl rfl)⟩

/-- C1 (amended): an upstream failure is marked retryable exactly when it is
a network error (a rejected fetch), or a status in `{500, 502, 503, 504}`,
or a status in `{400, 401, 402, 403, 429}` whose body matches a
provider-error pattern; and every attempt before the final one in the
fallback loop was a retryable provider-error failure, so any other error
stops the loop with no further model attempted. -/
theorem c1_amended :
    (∀ (st : Nat) (b : String),
        isProviderError st b = true ↔
          ((st = 500 ∨ st = 502 ∨ st = 503 ∨ st = 504) ∨
           ((st = 400 ∨ st = 401 ∨ st = 402 ∨ st = 403 ∨ st = 429) ∧
             anyProviderPattern b = true))) ∧
    (∀ msg, (tryModelResult (UpstreamOutcome.exn msg)).success = false ∧
        (tryModelResult (UpstreamOutcome.exn msg)).providerErr = true) ∧
    (∀ (o : Nat → UpstreamOutcome) (ms : List String) (j : Nat),
        j + 1 < (runLoop o ms 0).attempts.length →
        (tryModelResult (o j)).success = false ∧
          (tryModelResult (o j)).providerErr = true) := by
  refine ⟨isProviderError_iff, fun msg => ⟨rfl, rfl⟩, ?_⟩
  intro o ms j h
  simpa using runLoop_stop o ms 0 j h

/-- C1 witness: the amended classification and loop property at concrete
inputs — a 500 is retryable, a rejected fetch is retryable, and in a loop
that went past its first attempt that attempt was a retryable failure. -/
theorem c1_amended_witness :
    isProviderError 500 "" = true ∧
    ((tryModelResult (UpstreamOutcome.exn "boom")).success = false ∧
      (tryModelResult (UpstreamOutcome.exn "boom")).providerErr = true) ∧
    ((tryModelResult ((fun _ => UpstreamOutcome.ok 429 "rate limit exceeded") 0)).success
        = false ∧
      (tryModelResult ((fun _ => UpstreamOutcome.ok 429 "rate limit exceeded") 0)).providerErr
        = true) :=
  ⟨(c1_amended.1 500 "").mpr (Or.inl (Or.inl rfl)),
   c1_amended.2.1 "boom",
   c1_amended.2.2 (fun _ => UpstreamOutcome.ok 429 "rate limit exceeded")
     ["modelA", "modelB"] 0 (by decide)⟩

/-- C2: for every request carrying a routing decision, the attempted models
form a prefix of the chain truncated to `MAX_FALLBACK_ATTEMPTS`, so at most
`MAX_FALLBACK_ATTEMPTS` (= 3) upstream attempts are made and each entry of
the truncated chain is tried at most once. -/
theorem c2_fallback_bounded (raw : String) (c : Collab)
    (hR : (proxyRequest true raw c).routed = true) :
    (∃ k, (proxyRequest true raw c).attempts =
        (c.fallbackChain.take MAX_FALLBACK_ATTEMPTS).take k) ∧
    (proxyRequest true raw c).attempts.length ≤ MAX_FALLBACK_ATTEMPTS := by
  rcases proxyRequest_cases true raw c with ⟨e, he, _⟩ | ⟨nm, he, _⟩ |
    ⟨p2, he, _, hrt, _⟩
  · rw [he]
    exact ⟨⟨0, by simp [replayResult]⟩, by simp [replayResult]⟩
  · rw [he]
    exact ⟨⟨0, by simp [throwResult]⟩, by simp [throwResult]⟩
  · rw [he] at hR ⊢
    rw [runMain_routed] at hR
    rw [runMain_attempts, if_pos hR]
    obtain ⟨k, hk⟩ :=
      runLoop_attempts_take c.outcome (c.fallbackChain.take MAX_FALLBACK_ATTEMPTS) 0
    refine ⟨⟨k, hk⟩, ?_⟩
    rw [hk]
    simp only [List.length_take]
    omega

/-- C2 witness: a routed request over a two-model chain with failing
attempts stays within the bound. -/
theorem c2_fallback_bounded_witness :
    (proxyRequest true rawAutoBody collabDeadline).routed = true ∧
    ((∃ k, (proxyRequest true rawAutoBody collabDeadline).attempts =
        (collabDeadline.fallbackChain.take MAX_FALLBACK_ATTEMPTS).take k) ∧
      (proxyRequest true rawAutoBody collabDeadline).attempts.length
        ≤ MAX_FALLBACK_ATTEMPTS) :=
  ⟨rfl, c2_fallback_bounded rawAutoBody collabDeadline rfl⟩

/-- C3 (claim as specified, refuted): the bytes handed to
`RequestDeduplicator.hash` are not the raw request body — for a body whose
model is the alias `"claude"`, the gateway rewrites the body (alias
resolution) before computing the dedup key, so the hashed bytes differ from
the bytes received from the client. -/
theorem c3_counterexample :
    (proxyRequest true rawAliasBody collabBase).dedupKeyBytes ≠ rawAliasBody ∧
    (proxyRequest true rawAliasBody collabBase).dedupKeyBytes
      = "\x7b\"model\":\"anthropic/claude-sonnet-4\"\x7d" := by
  exact ⟨by decide, rfl⟩

/-- C3 (amended): the dedup key is the sha256 of the body *after* the
gateway rewrites (alias resolution, auto-model substitution, session
pinning, forcing `stream:false`): the hashed bytes are exactly the prepared
body, and only when the body does not parse as JSON (hence no rewrite
happens) are they the raw bytes as received. -/
theorem c3_amended :
    (∀ (u : Bool) (raw : String) (c : Collab),
        (proxyRequest u raw c).dedupKeyBytes = (prepOf u raw c).body) ∧
    (∀ (raw : String) (c : Collab), Json.parse raw = none →
        (proxyRequest true raw c).dedupKeyBytes = raw) := by
  have key_eq : ∀ (u : Bool) (raw : String) (c : Collab),
      (proxyRequest u raw c).dedupKeyBytes = (prepOf u raw c).body := by
    intro u raw c
    rcases proxyRequest_cases u raw c with ⟨e, he, _⟩ | ⟨nm, he, _⟩ | ⟨p2, he, _⟩
    · rw [he]
      rfl
    · rw [he]
      rfl
    · rw [he]
      exact runMain_key _ _ _
  refine ⟨key_eq, fun raw c h => ?_⟩
  rw [key_eq true raw c, prepOf_parse_none c h]

/-- C3 witness: the amended statement at concrete inputs — for a non-JSON
body no rewrite happens and the hashed bytes are the raw bytes. -/
theorem c3_amended_witness :
    Json.parse "not json" = none ∧
    (proxyRequest true "not json" collabBase).dedupKeyBytes = "not json" :=
  ⟨rfl, c3_amended.2 "not json" collabBase rfl⟩

/-- C4 (code bug, evaluated at the failing input): when the per-request
deadline fires during an upstream attempt, the aborted fetch rejects and
`tryModelRequest` classifies it as a retryable provider error, so the
fallback loop proceeds to the next model of the chain and the client finally
receives a 500 `provider_error` response — not a terminal 502-style error
with no further attempt. -/
theorem c4_deadline_retried :
    (tryModelResult (UpstreamOutcome.exn "This operation was aborted")).providerErr
      = true ∧
    (proxyRequest true rawAutoBody collabDeadline).attempts
      = ["openai/gpt-4o", "openai/gpt-4o-mini"] ∧
    (proxyRequest true rawAutoBody collabDeadline).responseStatus = some 500 := by
  exact ⟨rfl, rfl, rfl⟩

/-- C5 (claim as specified, refuted): a chat-completion request whose body is
not valid JSON is answered with 502 (not 400), and the error response *is*
stored in the deduplicator's completed cache; no upstream attempt is made. -/
theorem c5_counterexample :
    Json.parse "not json" = none ∧
    (proxyRequest true "not json" collabBase).responseStatus = some 502 ∧
    (proxyRequest true "not json" collabBase).responseStatus ≠ some 400 ∧
    (proxyRequest true "not json" collabBase).cached ≠ none ∧
    (proxyRequest true "not json" collabBase).attempts = [] := by
  exact ⟨rfl, rfl, by decide, by decide, rfl⟩

/-- C5 (amended): for every chat-completion request whose body is not valid
JSON (and a fresh dedup key), the gateway makes no upstream call and no
fallback attempt, responds 502 with the `provider_error` envelope
"All models in fallback chain failed", stores that response in the
deduplicator's completed cache, and throws nothing. -/
theorem c5_malformed_json (raw : String) (c : Collab)
    (hp : Json.parse raw = none)
    (hc : c.cachedEntry = none) (hi : c.inflightResult = none) :
    (proxyRequest true raw c).attempts = [] ∧
    (proxyRequest true raw c).responseStatus = some 502 ∧
    (proxyRequest true raw c).cached
      = some (502, errorEnvelope "All models in fallback chain failed") ∧
    (proxyRequest true raw c).threw = none := by
  have hprep := prepOf_parse_none c hp
  unfold proxyRequest
  simp only [hc, hi, hprep]
  exact ⟨rfl, rfl, rfl, rfl⟩

/-- C5 witness: the amended statement at the concrete non-JSON body. -/
theorem c5_malformed_json_witness :
    Json.parse "nope" = none ∧
    ((proxyRequest true "nope" collabBase).attempts = [] ∧
      (proxyRequest true "nope" collabBase).responseStatus = some 502 ∧
      (proxyRequest true "nope" collabBase).cached
        = some (502, errorEnvelope "All models in fallback chain failed") ∧
      (proxyRequest true "nope" collabBase).threw = none) :=
  ⟨rfl, c5_malformed_json "nope" collabBase rfl rfl rfl⟩

/-- C6 (claim as specified, refuted): a balance veto (insufficient funds) on
an auto-routed request does *not* terminate the request — the gateway throws
nothing, proceeds to attempt the fallback chain upstream, and answers 200. -/
theorem c6_counterexample :
    (collabVetoAuto.balanceSufficient = false) ∧
    (proxyRequest true rawAutoBody collabVetoAuto).routed = true ∧
    (proxyRequest true rawAutoBody collabVetoAuto).threw = none ∧
    (proxyRequest true rawAutoBody collabVetoAuto).attempts = ["openai/gpt-4o"] ∧
    (proxyRequest true rawAutoBody collabVetoAuto).responseStatus = some 200 := by
  exact ⟨rfl, rfl, rfl, rfl, rfl⟩

/-- C6 (amended): when the balance check fails (wallet empty or balance
below the buffered estimate) for an explicitly specified paid model, the
gateway throws the typed `EmptyWalletError`/`InsufficientFundsError` — no
upstream attempt, nothing written, nothing cached (the server surfaces the
thrown error as a terminal response); but when the vetoed request was
auto-routed, the gateway instead substitutes the free model and proceeds,
throwing nothing. -/
theorem c6_balance_veto (raw : String) (c : Collab)
    (hc : c.cachedEntry = none) (hi : c.inflightResult = none)
    (hcond : (prepOf true raw c).modelId ≠ "" ∧ c.skipBalanceCheck = false ∧
      (prepOf true raw c).modelId ≠ FREE_MODEL ∧
      estimateAmountDefined (prepOf true raw c).modelId = true)
    (hveto : c.balanceEmpty = true ∨ c.balanceSufficient = false) :
    ((prepOf true raw c).routed = false →
      (proxyRequest true raw c).threw =
        some (if c.balanceEmpty = true then "EmptyWalletError"
          else "InsufficientFundsError") ∧
      (proxyRequest true raw c).attempts = [] ∧
      (proxyRequest true raw c).cached = none ∧
      (proxyRequest true raw c).writes = []) ∧
    ((prepOf true raw c).routed = true →
      (proxyRequest true raw c).threw = none) := by
  unfold proxyRequest
  simp only [hc, hi]
  rw [if_pos hcond, if_pos hveto]
  constructor
  · intro hr
    rw [if_neg (by simp [hr])]
    by_cases he : c.balanceEmpty = true
    · rw [if_pos he, if_pos he]
      exact ⟨rfl, rfl, rfl, rfl⟩
    · rw [if_neg he, if_neg he]
      exact ⟨rfl, rfl, rfl, rfl⟩
  · intro hr
    rw [if_pos hr]
    exact runMain_threw _ _ _

/-- C6 witness: the amended statement at a concrete explicit-model request
with an insufficient (non-empty) balance. -/
theorem c6_balance_veto_witness :
    (prepOf true rawExplicitBody collabVetoExplicit).routed = false ∧
    (proxyRequest true rawExplicitBody collabVetoExplicit).threw
      = some "InsufficientFundsError" ∧
    (proxyRequest true rawExplicitBody collabVetoExplicit).attempts = [] ∧
    (proxyRequest true rawExplicitBody collabVetoExplicit).cached = none :=
  ⟨rfl,
    ((c6_balance_veto rawExplicitBody collabVetoExplicit rfl rfl
      ⟨by decide, rfl, by decide, rfl⟩ (Or.inr rfl)).1 rfl).1,
    ((c6_balance_veto rawExplicitBody collabVetoExplicit rfl rfl
      ⟨by decide, rfl, by decide, rfl⟩ (Or.inr rfl)).1 rfl).2.1,
    ((c6_balance_veto rawExplicitBody collabVetoExplicit rfl rfl
      ⟨by decide, rfl, by decide, rfl⟩ (Or.inr rfl)).1 rfl).2.2.1⟩

/-- C7: for every streaming chat-completion request with a fresh dedup key
that is not vetoed, the SSE comment heartbeat frame is the first byte
sequence written to the client, before any `data:` frame — the preamble
writes it before the upstream dispatch even starts, so in particular it is
observed whenever the upstream takes longer than the heartbeat interval. -/
theorem c7_heartbeat_first (raw : String) (c : Collab)
    (hS : (proxyRequest true raw c).isStreaming = true)
    (hc : c.cachedEntry = none) (hi : c.inflightResult = none)
    (hT : (proxyRequest true raw c).threw = none) :
    ∃ rest, (proxyRequest true raw c).writes = hbFrame :: rest ∧
      strStartsWith hbFrame ("data:") = false := by
  rcases proxyRequest_cases true raw c with ⟨e, he, hor⟩ | ⟨nm, he, _⟩ |
    ⟨p2, he, hstr, _, _⟩
  · rcases hor with h | h
    · rw [hc] at h
      cases h
    · rw [hi] at h
      cases h
  · rw [he] at hT
    simp [throwResult] at hT
  · rw [he] at hS ⊢
    rw [runMain_isStreaming] at hS
    rw [runMain_writes]
    obtain ⟨rest, hrw⟩ := mainResponse_writes_streaming p2 c _ hS
    exact ⟨rest, hrw, by decide⟩

/-- C7 witness: a concrete streaming request whose dispatch succeeds — the
first response write is the heartbeat frame. -/
theorem c7_heartbeat_first_witness :
    (proxyRequest true rawStreamBody collabStreamOk).isStreaming = true ∧
    (∃ rest, (proxyRequest true rawStreamBody collabStreamOk).writes
        = hbFrame :: rest ∧ strStartsWith hbFrame ("data:") = false) :=
  ⟨rfl, c7_heartbeat_first rawStreamBody collabStreamOk rfl rfl rfl rfl⟩

/-- C8 (code bug, evaluated): the `/v1/models` data array *does* contain the
synthetic auto entry — the filter tests `m.id !== "blockrun/auto"` while the
catalog stores the synthetic id as `"auto"`, so the filter removes nothing
and the claimed exclusion fails. -/
theorem c8_auto_not_excluded :
    ("auto" ∈ (v1ModelsData 0).map V1ModelEntry.id) ∧
    (v1ModelsData 0).map V1ModelEntry.id = BLOCKRUN_MODEL_IDS := by
  exact ⟨by decide, rfl⟩

/-- C9: alias resolution is idempotent — resolving an already-resolved model
id is a no-op, for every input string. -/
theorem c9_alias_idempotent (x : String) :
    resolveModelAlias (resolveModelAlias x) = resolveModelAlias x := by
  rcases resolve_cases x with h | h
  · rw [h]
    exact h
  · exact alias_values_fixed _ h

/-- C10: for every chat-completion request whose model is explicitly
specified (no routing decision produced), the fallback chain is exactly that
one model: either nothing is attempted (dedup replay or balance veto) or
exactly that model is attempted once — never any other model, whatever the
upstream outcomes. -/
theorem c10_explicit_no_fallback (raw : String) (c : Collab)
    (hR : (prepOf true raw c).routed = false)
    (hM : (prepOf true raw c).modelId ≠ "") :
    (proxyRequest true raw c).attempts = [] ∨
      (proxyRequest true raw c).attempts = [(prepOf true raw c).modelId] := by
  rcases proxyRequest_cases true raw c with ⟨e, he, _⟩ | ⟨nm, he, _⟩ |
    ⟨p2, he, _, hrt, hp2⟩
  · rw [he]
    left
    rfl
  · rw [he]
    left
    rfl
  · rcases hp2 with hpe | ⟨hrt2, _⟩
    · subst hpe
      rw [he, runMain_attempts, if_neg (by simp [hR]), if_pos hM]
      right
      exact runLoop_single c.outcome _ 0
    · rw [hR] at hrt2
      cases hrt2

/-- C10 witness: a concrete explicit-model request whose only attempt fails
upstream — exactly that model was attempted. -/
theorem c10_explicit_no_fallback_witness :
    (prepOf true rawExplicitBody collabExplicitFail).routed = false ∧
    (prepOf true rawExplicitBody collabExplicitFail).modelId = "openai/gpt-4o" ∧
    ((proxyRequest true rawExplicitBody collabExplicitFail).attempts = [] ∨
      (proxyRequest true rawExplicitBody collabExplicitFail).attempts
        = [(prepOf true rawExplicitBody collabExplicitFail).modelId]) :=
  ⟨rfl, rfl,
    c10_explicit_no_fallback rawExplicitBody collabExplicitFail rfl (by decide)⟩

end ClawRouter
